import Mathlib

/-
  Verification development for the zionic-followup execution-queue engine.
  Shallow embedding of the latest revision in src/server.js (lines 1-1988)
  and of the placeholder substitution in src/appointment-reminders-processor.js.
  External calls (database, LLM provider, messaging gateway) are modelled as
  explicit environment records whose fields carry each call's outcome.
-/

-- ===============================================
-- JavaScript string replacement semantics
-- ===============================================

/-- JS `s.replace(pat, rep)` with a STRING pattern: replaces only the first
occurrence of `pat` (server.js:530,543,581,602 use this form on `'{nome}'`). -/
def jsReplaceFirst (s pat rep : List Char) : List Char :=
  match s with
  | [] => []
  | c :: rest =>
    if pat.isPrefixOf (c :: rest) then rep ++ (c :: rest).drop pat.length
    else c :: jsReplaceFirst rest pat rep

/-- Recursion core of global-regex replacement, for a nonempty pattern `p :: ps`. -/
def replaceAllAux (p : Char) (ps rep : List Char) : List Char → List Char
  | [] => []
  | c :: rest =>
    if (p :: ps).isPrefixOf (c :: rest) then
      rep ++ replaceAllAux p ps rep (rest.drop ps.length)
    else c :: replaceAllAux p ps rep rest
  termination_by s => s.length
  decreasing_by
    · simp only [List.length_cons, List.length_drop]; omega
    · simp only [List.length_cons]; omega

/-- JS `s.replace(/pat/g, rep)`: replaces every occurrence, scanning left to
right (appointment-reminders-processor.js:258-266 uses this form). -/
def jsReplaceAll (s pat rep : List Char) : List Char :=
  match pat with
  | [] => s
  | p :: ps => replaceAllAux p ps rep s

/-- Splits `s` at the first occurrence of `pat`: `some (a, b)` with
`s = a ++ pat ++ b` and no occurrence starting inside `a`. -/
def splitOnFirst (s pat : List Char) : Option (List Char × List Char) :=
  match s with
  | [] => none
  | c :: rest =>
    if pat.isPrefixOf (c :: rest) then some ([], (c :: rest).drop pat.length)
    else (splitOnFirst rest pat).map (fun ab => (c :: ab.1, ab.2))

/-- String wrapper for first-occurrence replacement. -/
def jsReplaceFirstS (s pat rep : String) : String :=
  String.mk (jsReplaceFirst s.data pat.data rep.data)

/-- String wrapper for global replacement. -/
def jsReplaceAllS (s pat rep : String) : String :=
  String.mk (jsReplaceAll s.data pat.data rep.data)

/-- The `{nome}` placeholder token. -/
def nomeTok : String := "\x7bnome\x7d"

/-- The `{appointment_title}` placeholder token. -/
def titleTok : String := "\x7bappointment_title\x7d"

/-- The `{data}` placeholder token. -/
def dataTok : String := "\x7bdata\x7d"

/-- The `{horario}` placeholder token. -/
def horarioTok : String := "\x7bhorario\x7d"

/-- The `{local}` placeholder token. -/
def localTok : String := "\x7blocal\x7d"

/-- JS truthiness of `v || d` for an optional string: `undefined`/`null`/`''`
fall back to the default. -/
def jsOrDefault (v : Option String) (d : String) : String :=
  match v with
  | none => d
  | some s => if s = "" then d else s

/-- The follow-up template fallback `template.replace('{nome}',
context.contact?.first_name || 'usuário')` (server.js:530,543,581,602). -/
def fallbackSub (template : String) (firstName : Option String) : String :=
  jsReplaceFirstS template nomeTok (jsOrDefault firstName "usuário")

/-- The `{nome}` step of the reminder processor: applied only when
`reminder.contact_name` is truthy, with a global regex
(appointment-reminders-processor.js:257-259). -/
def reminderNomeStep (template : String) (contactName : Option String) : String :=
  match contactName with
  | none => template
  | some n => if n = "" then template else jsReplaceAllS template nomeTok n

/-- The full variable-substitution block of the reminder processor
(appointment-reminders-processor.js:253-267): `{nome}` and
`{appointment_title}` guarded by truthiness, `{data}`/`{horario}`
unconditional, `{local}` guarded; all via global regexes. -/
def reminderSubstitute (template : String) (contactName apptTitle : Option String)
    (dataFormatada horarioFormatado : String) (location : Option String) : String :=
  let m1 := reminderNomeStep template contactName
  let m2 := match apptTitle with
    | none => m1
    | some ti => if ti = "" then m1 else jsReplaceAllS m1 titleTok ti
  let m3 := jsReplaceAllS m2 dataTok dataFormatada
  let m4 := jsReplaceAllS m3 horarioTok horarioFormatado
  match location with
  | none => m4
  | some loc => if loc = "" then m4 else jsReplaceAllS m4 localTok loc

-- ===============================================
-- Credit Ledger Gate (server.js:332-389)
-- ===============================================

deriving instance DecidableEq for Except

/-- Outcome of the external calls made by `checkCreditsBalance`: validity of
the company id and the ledger row lookup (error or balance; a missing/null
balance is `.ok 0`, matching `data?.balance || 0`). -/
structure CreditsEnv where
  companyIdValid : Bool
  lookup : Except String Nat
  deriving DecidableEq

/-- Result record of `checkCreditsBalance`. -/
structure CreditsCheck where
  hasEnough : Bool
  currentBalance : Nat
  required : Nat
  deriving DecidableEq

/-- CONFIG.credits.minimumBalanceThreshold (server.js:80). -/
def minimumBalanceThreshold : Nat := 1000

/-- checkCreditsBalance (server.js:332-389): fails closed on an invalid
company id or a ledger lookup error, else compares balance to the estimate. -/
def checkCreditsBalance (env : CreditsEnv) (estimatedTokens : Nat) : CreditsCheck :=
  if env.companyIdValid = false then
    { hasEnough := false, currentBalance := 0, required := estimatedTokens }
  else
    match env.lookup with
    | .error _ => { hasEnough := false, currentBalance := 0, required := estimatedTokens }
    | .ok bal => { hasEnough := decide (estimatedTokens ≤ bal), currentBalance := bal, required := estimatedTokens }

-- ===============================================
-- Message Personalization Chain (server.js:521-720)
-- ===============================================

/-- Outcomes of the external calls made by
`generatePersonalizedMessageWithZionicCredits`: presence of the system
OpenAI key, the credit gate environment, and the result of each thread
strategy (`.error` models a thrown exception anywhere inside the strategy,
`.ok` the trimmed assistant message it returned). -/
structure GenEnv where
  hasApiKey : Bool
  creditsEnv : CreditsEnv
  assistantResult : Except String String
  threadOnlyResult : Except String String
  deriving DecidableEq

/-- Result of the personalization chain: the final message and whether a
thread strategy was dispatched at all (an upper bound on any LLM transport
invocation: the insufficient-credit and missing-key branches return before
any strategy code runs). -/
structure GenOut where
  message : String
  strategyAttempted : Bool
  deriving DecidableEq

/-- generatePersonalizedMessageWithZionicCredits (server.js:521-606): missing
key or insufficient credits (estimate 300) return the template substitution;
otherwise exactly one thread strategy is chosen by `agent.openai_assistant_id`
(server.js:549-577); a thrown strategy or a falsy message also falls back to
the template substitution (server.js:579-605). The notification calls
(server.js:1834-1939) swallow their own errors, so the function never throws. -/
def generatePersonalizedMessageWithZionicCredits (env : GenEnv) (template : String)
    (firstName : Option String) (hasAssistantId : Bool) : GenOut :=
  if env.hasApiKey = false then
    { message := fallbackSub template firstName, strategyAttempted := false }
  else
    let cc := checkCreditsBalance env.creditsEnv 300
    if cc.hasEnough = false then
      { message := fallbackSub template firstName, strategyAttempted := false }
    else
      let r := if hasAssistantId then env.assistantResult else env.threadOnlyResult
      match r with
      | .error _ => { message := fallbackSub template firstName, strategyAttempted := true }
      | .ok m =>
        if m = "" then { message := fallbackSub template firstName, strategyAttempted := true }
        else { message := m, strategyAttempted := true }

-- ===============================================
-- Business hours and timezone (server.js:66-83,127-202)
-- ===============================================

/-- CONFIG.businessHours.start (server.js:73). -/
def businessHoursStart : Int := 8

/-- CONFIG.businessHours.end (server.js:74). -/
def businessHoursEnd : Int := 18

/-- Instants are minutes since an epoch (UTC); a timezone is its offset from
UTC in minutes. Hour-of-day of instant `t` in the timezone of offset `off`. -/
def localHour (t off : Int) : Int := ((t + off) / 60) % 24

/-- Calendar day of instant `t` in the timezone of offset `off`. -/
def localDay (t off : Int) : Int := (t + off) / 1440

/-- The hour-window test `currentHour >= start && currentHour < end`
(server.js:155). -/
def inBusinessHours (h : Int) : Bool := decide (businessHoursStart ≤ h ∧ h < businessHoursEnd)

/-- isBusinessHours (server.js:127-162): computes the hour of `now` in the
company timezone; if that computation throws (e.g. `Intl.DateTimeFormat` on a
bad timezone string, modelled by `err = some msg`), the catch block returns
`true` — the system fails open. -/
def isBusinessHoursM (err : Option String) (now companyOff : Int) : Bool :=
  match err with
  | some _ => true
  | none => inBusinessHours (localHour now companyOff)

/-- getCompanyTimezone (server.js:167-202): company timezone if the lookup
succeeded and the field is truthy, else the owner user's, else the
Brazilian default — also on any thrown error. -/
def getCompanyTimezoneM (companyTz userTz : Option String) : String :=
  match companyTz with
  | some tz => tz
  | none =>
    match userTz with
    | some tz => tz
    | none => "America/Sao_Paulo"

/-- The reschedule target computed at server.js:1289-1314: the hour test is
done in the COMPANY timezone (`companyHour`, server.js:1305) but
`setDate`/`setHours` operate on the SERVER-local calendar
(server.js:1309,1314), yielding the instant of `businessHoursStart:00` on the
server-local day of `now` (next day when the company hour has passed
`businessHoursEnd`). -/
def rescheduleInstant (now serverOff companyOff : Int) : Int :=
  let companyHour := localHour now companyOff
  let base := if businessHoursEnd ≤ companyHour then now + 1440 else now
  localDay base serverOff * 1440 + businessHoursStart * 60 - serverOff

-- ===============================================
-- Execution Driver: processFollowUp (server.js:1162-1506)
-- ===============================================

/-- Queue item statuses (spec 3, `follow_up_queue.status`). -/
inductive FStatus where
  | pending
  | sent
  | failed
  | cancelled
  deriving DecidableEq

/-- A `follow_up_queue` row, restricted to the fields the claims are about. -/
structure Item where
  conversationId : Nat
  ruleId : Nat
  status : FStatus
  attempts : Nat
  maxAttempts : Nat
  scheduledAt : Int
  messageTemplate : String
  executionError : Option String
  generatedMessage : Option String
  deriving DecidableEq

/-- Outcomes of the external calls made during one `processFollowUp` run, in
program order. The status re-read (server.js:1187-1195) is assumed to return
the row's current state when it succeeds (single-instance assumption, spec 5). -/
structure ProcEnv where
  statusReadOk : Bool
  companyIdPresent : Bool
  backfillOk : Bool
  creditsEnv : CreditsEnv
  contextOk : Bool
  contactFirstName : Option String
  agentOk : Bool
  hasAssistantId : Bool
  genEnv : GenEnv
  ruleRequiresBusinessHours : Bool
  bhError : Option String
  now : Int
  serverTzOffset : Int
  companyTzOffset : Int
  instanceOk : Bool
  sendOk : Bool
  sendErrorMsg : String
  updateSentOk : Bool
  deriving DecidableEq

/-- The value returned by `processFollowUp` (server.js:1203,1223,1329,1469,1496). -/
inductive Outcome where
  | skippedStatusChanged
  | failedMaxAttempts
  | errored (msg : String)
  | deferredOutcome
  | sentOutcome
  deriving DecidableEq

/-- One run's observable effects: the successive `follow_up_queue` row states
written (full row after each update), the returned outcome, and whether the
personalization chain and the outbound send were reached. -/
structure ProcOut where
  writes : List Item
  outcome : Outcome
  personalizeAttempted : Bool
  sendAttempted : Bool
  deriving DecidableEq

/-- Error message of server.js:1219. -/
def maxAttemptsMsg (m : Nat) : String :=
  "Máximo de " ++ toString m ++ " tentativas atingido"

/-- Error message of server.js:1254. -/
def insufficientCreditsMsg (bal : Nat) : String :=
  "Créditos insuficientes (" ++ toString bal ++ "/" ++ toString minimumBalanceThreshold ++ ")"

/-- Error message of server.js:1194. -/
def statusReadErrMsg : String := "Follow-up não encontrado ou já foi removido"

/-- Error message of server.js:1238. -/
def companyIdErrMsg : String := "Não foi possível determinar company_id"

/-- Error message of server.js:1264. -/
def contextErrMsg : String := "Não foi possível carregar contexto da conversa"

/-- Error message of server.js:1275. -/
def agentErrMsg : String := "Agente não encontrado"

/-- Error message of server.js:1363. -/
def instanceErrMsg : String := "Instância WhatsApp ativa não encontrada"

/-- Error message of server.js:1404. -/
def sentUpdateErrMsg : String := "Erro ao marcar como sent"

/-- The update performed by the generic catch block (server.js:1475-1486):
`attempts := attempts + 1`, `status := failed` when the new count reaches
`max_attempts` else `pending`, and the error message persisted. -/
def catchWrite (item : Item) (msg : String) : Item :=
  { item with
    attempts := item.attempts + 1
    status := if item.maxAttempts ≤ item.attempts + 1 then FStatus.failed else FStatus.pending
    executionError := some msg }

/-- processFollowUp (server.js:1162-1506), as the sequence of queue writes it
performs plus its return value. Branches, in program order: status re-read
error (1193, throws into the catch); status no longer pending (1197-1204);
attempts at the cap (1206-1224); company-id backfill failure (1226-1243,
throws); insufficient credits (1245-1259: failed write THEN a throw that the
generic catch turns into a second write); context load failure (1261-1265);
agent load failure (1267-1276); business-hours deferral (1282-1330);
personalization (1332-1345, total); missing WhatsApp instance (1354-1364);
send failure (1366-1375); failing `sent` update (1386-1405, throws); success
(1377-1469). -/
def processFollowUp (item : Item) (e : ProcEnv) : ProcOut :=
  if e.statusReadOk = false then
    { writes := [catchWrite item statusReadErrMsg], outcome := .errored statusReadErrMsg,
      personalizeAttempted := false, sendAttempted := false }
  else if item.status ≠ FStatus.pending then
    { writes := [], outcome := .skippedStatusChanged,
      personalizeAttempted := false, sendAttempted := false }
  else if item.maxAttempts ≤ item.attempts then
    { writes := [{ item with
                   status := FStatus.failed
                   executionError := some (maxAttemptsMsg item.maxAttempts) }],
      outcome := .failedMaxAttempts, personalizeAttempted := false, sendAttempted := false }
  else if e.companyIdPresent = false ∧ e.backfillOk = false then
    { writes := [catchWrite item companyIdErrMsg], outcome := .errored companyIdErrMsg,
      personalizeAttempted := false, sendAttempted := false }
  else
    let cc := checkCreditsBalance e.creditsEnv minimumBalanceThreshold
    if cc.hasEnough = false then
      { writes := [{ item with
                     status := FStatus.failed
                     attempts := item.attempts + 1
                     executionError := some (insufficientCreditsMsg cc.currentBalance) },
                   catchWrite item (insufficientCreditsMsg cc.currentBalance)],
        outcome := .errored (insufficientCreditsMsg cc.currentBalance),
        personalizeAttempted := false, sendAttempted := false }
    else if e.contextOk = false then
      { writes := [catchWrite item contextErrMsg], outcome := .errored contextErrMsg,
        personalizeAttempted := false, sendAttempted := false }
    else if e.agentOk = false then
      { writes := [catchWrite item agentErrMsg], outcome := .errored agentErrMsg,
        personalizeAttempted := false, sendAttempted := false }
    else if e.ruleRequiresBusinessHours = true ∧
            isBusinessHoursM e.bhError e.now e.companyTzOffset = false then
      { writes := [{ item with
                     scheduledAt := rescheduleInstant e.now e.serverTzOffset e.companyTzOffset }],
        outcome := .deferredOutcome, personalizeAttempted := false, sendAttempted := false }
    else
      let gen := generatePersonalizedMessageWithZionicCredits e.genEnv item.messageTemplate
                   e.contactFirstName e.hasAssistantId
      if e.instanceOk = false then
        { writes := [catchWrite item instanceErrMsg], outcome := .errored instanceErrMsg,
          personalizeAttempted := true, sendAttempted := false }
      else if e.sendOk = false then
        { writes := [catchWrite item e.sendErrorMsg], outcome := .errored e.sendErrorMsg,
          personalizeAttempted := true, sendAttempted := true }
      else if e.updateSentOk = false then
        { writes := [catchWrite item sentUpdateErrMsg], outcome := .errored sentUpdateErrMsg,
          personalizeAttempted := true, sendAttempted := true }
      else
        { writes := [{ item with
                       status := FStatus.sent
                       attempts := item.attempts + 1
                       generatedMessage := some gen.message }],
          outcome := .sentOutcome, personalizeAttempted := true, sendAttempted := true }

/-- Last element of a write sequence, defaulting to the original row. -/
def lastWrite (ws : List Item) (dflt : Item) : Item :=
  match ws with
  | [] => dflt
  | w :: rest => lastWrite rest w

/-- The row's state after one `processFollowUp` run. -/
def finalOf (item : Item) (e : ProcEnv) : Item :=
  lastWrite (processFollowUp item e).writes item

/-- The row's state after a sequence of runs (successive poll cycles). -/
def runFollowUps (item : Item) (envs : List ProcEnv) : Item :=
  envs.foldl finalOf item

/-- Invariant of spec 3: while a row is pending its attempts stay within the
cap. -/
def AttemptsInv (item : Item) : Prop :=
  item.status = FStatus.pending → item.attempts ≤ item.maxAttempts

instance (item : Item) : Decidable (AttemptsInv item) := by
  unfold AttemptsInv; infer_instance

-- ===============================================
-- Orphan & Cleanup Detector (server.js:1543-1633, stored procedure)
-- ===============================================

/-- Boolean match on the (conversation_id, rule_id) pair. -/
def pairMatch (c r : Nat) (it : Item) : Bool :=
  decide (it.conversationId = c ∧ it.ruleId = r)

/-- Boolean match on the pair together with `status = sent`. -/
def pairSentMatch (c r : Nat) (it : Item) : Bool :=
  decide (it.conversationId = c ∧ it.ruleId = r ∧ it.status = FStatus.sent)

/-- Number of queue rows for a given pair. -/
def pairCount (q : List Item) (c r : Nat) : Nat := q.countP (pairMatch c r)

/-- Number of `sent` queue rows for a given pair. -/
def sentCount (q : List Item) (c r : Nat) : Nat := q.countP (pairSentMatch c r)

/-- Modelled from the spec: the stored procedure
`create_orphaned_follow_ups_ultra_safe` that `findAndCreateOrphanedFollowUps`
invokes via RPC (server.js:1571) is not part of src/. Per spec 4.4 it
performs, before materializing an orphan for a (conversation, rule) pair, a
verification read for an existing `sent` item on that pair and a check that
no item of any status exists for the pair; only when both are absent and the
rule's delay has elapsed does it insert a backdated pending item with
`scheduled_at = last_message_time + delay`. (The read inside
`findAndCreateOrphanedFollowUps` itself, server.js:1586-1606, runs AFTER
creation, covers at most the first five created rows, and only logs.) -/
def createOrphanUltraSafe (q : List Item) (c r : Nat) (template : String)
    (maxAtt : Nat) (lastMsg delay now : Int) : List Item :=
  if q.any (pairSentMatch c r) then q
  else if q.any (pairMatch c r) then q
  else if lastMsg + delay ≤ now then
    q ++ [{ conversationId := c
            ruleId := r
            status := FStatus.pending
            attempts := 0
            maxAttempts := maxAtt
            scheduledAt := lastMsg + delay
            messageTemplate := template
            executionError := none
            generatedMessage := none }]
  else q

/-- Events that mutate the queue in the modelled system: an orphan-detector
pass over one (conversation, rule) pair, or one `processFollowUp` run over
the row at index `i`. -/
inductive QEvent where
  | orphan (c r : Nat) (template : String) (maxAtt : Nat) (lastMsg delay now : Int)
  | process (i : Nat) (e : ProcEnv)

/-- One queue transition. -/
def qstep (q : List Item) : QEvent → List Item
  | .orphan c r t m l d n => createOrphanUltraSafe q c r t m l d n
  | .process i e =>
    match q[i]? with
    | none => q
    | some it => q.set i (finalOf it e)

/-- A run of the modelled system. -/
def runQ (q : List Item) (evs : List QEvent) : List Item := evs.foldl qstep q

/-- Each (conversation, rule) pair has at most one queue row. -/
def PairUnique (q : List Item) : Prop := ∀ c r, pairCount q c r ≤ 1

/-- Each (conversation, rule) pair has at most one `sent` queue row (spec 3
invariant). -/
def AtMostOneSent (q : List Item) : Prop := ∀ c r, sentCount q c r ≤ 1

-- ===============================================
-- Concrete fixtures for witnesses and counterexamples
-- ===============================================

/-- A personalization environment in which every external call succeeds. -/
def demoGenEnvOk : GenEnv :=
  { hasApiKey := true
    creditsEnv := { companyIdValid := true, lookup := Except.ok 100000 }
    assistantResult := Except.ok "Oi, tudo bem?"
    threadOnlyResult := Except.ok "Oi, tudo bem?" }

/-- A queue row parameterized by status and attempt counters,
scheduled at instant 540 (09:00 UTC on day 0). -/
def demoItem (st : FStatus) (att maxAtt : Nat) : Item :=
  { conversationId := 7
    ruleId := 9
    status := st
    attempts := att
    maxAttempts := maxAtt
    scheduledAt := 540
    messageTemplate := "Olá \x7bnome\x7d"
    executionError := none
    generatedMessage := none }

/-- A process environment in which every external call succeeds, evaluated at
instant 570 (09:30 UTC on day 0) with server and company both at UTC. -/
def demoEnv : ProcEnv :=
  { statusReadOk := true
    companyIdPresent := true
    backfillOk := true
    creditsEnv := { companyIdValid := true, lookup := Except.ok 100000 }
    contextOk := true
    contactFirstName := some "Maria"
    agentOk := true
    hasAssistantId := false
    genEnv := demoGenEnvOk
    ruleRequiresBusinessHours := false
    bhError := none
    now := 570
    serverTzOffset := 0
    companyTzOffset := 0
    instanceOk := true
    sendOk := true
    sendErrorMsg := "Erro no envio WhatsApp"
    updateSentOk := true }

-- ===============================================
-- Theorems: string replacement (C10 substrate)
-- ===============================================

theorem splitOnFirst_decomp (pat : List Char) :
    ∀ (s a b : List Char), splitOnFirst s pat = some (a, b) →
      s = a ++ pat ++ b ∧ ∀ rep, jsReplaceFirst s pat rep = a ++ rep ++ b := by
  intro s
  induction s with
  | nil => intro a b h; simp [splitOnFirst] at h
  | cons c rest ih =>
    intro a b h
    by_cases hp : pat.isPrefixOf (c :: rest)
    · rw [List.isPrefixOf_iff_prefix] at hp
      obtain ⟨t, ht⟩ := hp
      simp only [splitOnFirst, List.isPrefixOf_iff_prefix] at h
      rw [if_pos ⟨t, ht⟩] at h
      obtain ⟨ha, hb⟩ := Prod.mk.injEq .. ▸ Option.some.injEq .. ▸ h
      subst ha
      have hdrop : (c :: rest).drop pat.length = t := by
        rw [← ht]; exact List.drop_left pat t
      rw [hdrop] at hb
      subst hb
      constructor
      · simpa using ht.symm
      · intro rep
        simp only [jsReplaceFirst, List.isPrefixOf_iff_prefix]
        rw [if_pos ⟨t, ht⟩, hdrop]
        simp
    · simp only [splitOnFirst] at h
      rw [if_neg (by simpa [List.isPrefixOf_iff_prefix] using hp)] at h
      cases hr : splitOnFirst rest pat with
      | none => rw [hr] at h; simp at h
      | some ab =>
        rw [hr] at h
        simp only [Option.map_some', Option.some.injEq] at h
        obtain ⟨ha, hb⟩ := Prod.mk.injEq .. ▸ h
        obtain ⟨h1, h2⟩ := ih ab.1 ab.2 hr
        constructor
        · rw [← ha, ← hb]; simp [h1]
        · intro rep
          simp only [jsReplaceFirst]
          rw [if_neg (by simpa [List.isPrefixOf_iff_prefix] using hp)]
          rw [h2 rep, ← ha, ← hb]
          simp

theorem splitOnFirst_replaceAllAux (p : Char) (ps rep : List Char) :
    ∀ (s a b : List Char), splitOnFirst s (p :: ps) = some (a, b) →
      replaceAllAux p ps rep s = a ++ rep ++ replaceAllAux p ps rep b := by
  intro s
  induction s using replaceAllAux.induct p ps rep with
  | case1 => intro a b h; simp [splitOnFirst] at h
  | case2 c rest hp ih =>
    intro a b h
    simp only [splitOnFirst] at h
    rw [if_pos hp] at h
    obtain ⟨ha, hb⟩ := Prod.mk.injEq .. ▸ Option.some.injEq .. ▸ h
    subst ha
    have hd : (c :: rest).drop (p :: ps).length = rest.drop ps.length := by simp
    rw [hd] at hb
    subst hb
    simp only [replaceAllAux]
    rw [if_pos hp]
    simp
  | case3 c rest hp ih =>
    intro a b h
    simp only [splitOnFirst] at h
    rw [if_neg hp] at h
    cases hr : splitOnFirst rest (p :: ps) with
    | none => rw [hr] at h; simp at h
    | some ab =>
      rw [hr] at h
      simp only [Option.map_some', Option.some.injEq] at h
      obtain ⟨ha, hb⟩ := Prod.mk.injEq .. ▸ h
      simp only [replaceAllAux]
      rw [if_neg hp, ih ab.1 ab.2 hr, ← ha, ← hb]
      simp

theorem jsReplaceFirst_ne_nil (s pat rep : List Char) (hs : s ≠ []) (hr : rep ≠ []) :
    jsReplaceFirst s pat rep ≠ [] := by
  cases s with
  | nil => exact absurd rfl hs
  | cons c rest =>
    by_cases hp : pat.isPrefixOf (c :: rest)
    · simp [jsReplaceFirst, hp, List.append_eq_nil, hr]
    · simp [jsReplaceFirst, hp]

theorem splitOnFirst_none_replaceAllAux (p : Char) (ps rep : List Char) :
    ∀ s, splitOnFirst s (p :: ps) = none → replaceAllAux p ps rep s = s := by
  intro s
  induction s using replaceAllAux.induct p ps rep with
  | case1 => intro h; simp [replaceAllAux]
  | case2 c rest hp ih =>
    intro h
    simp only [splitOnFirst] at h
    rw [if_pos hp] at h
    simp at h
  | case3 c rest hp ih =>
    intro h
    simp only [splitOnFirst] at h
    rw [if_neg hp] at h
    cases hr : splitOnFirst rest (p :: ps) with
    | none =>
      simp only [replaceAllAux]
      rw [if_neg hp, ih hr]
    | some ab => rw [hr] at h; simp at h

/-- Helper: concrete contrast on a template with two `{nome}` occurrences. -/
theorem reminderNome_two_occurrences :
    reminderNomeStep "Olá \x7bnome\x7d, \x7bnome\x7d!" (some "Maria") = "Olá Maria, Maria!" := by
  have e1 := splitOnFirst_replaceAllAux '\x7b' ("nome\x7d" : String).data ("Maria" : String).data
    ("Olá \x7bnome\x7d, \x7bnome\x7d!" : String).data ("Olá " : String).data
    (", \x7bnome\x7d!" : String).data (by decide)
  have e2 := splitOnFirst_replaceAllAux '\x7b' ("nome\x7d" : String).data ("Maria" : String).data
    (", \x7bnome\x7d!" : String).data (", " : String).data ("!" : String).data (by decide)
  have e3 := splitOnFirst_none_replaceAllAux '\x7b' ("nome\x7d" : String).data
    ("Maria" : String).data ("!" : String).data (by decide)
  show String.mk (replaceAllAux '\x7b' ("nome\x7d" : String).data ("Maria" : String).data
    ("Olá \x7bnome\x7d, \x7bnome\x7d!" : String).data) = "Olá Maria, Maria!"
  rw [e1, e2, e3]
  decide

/-- C10: in the follow-up fallback path only the first `{nome}` occurrence is
replaced (JS `String.replace` with a string pattern, server.js:530,543,581,602):
the template decomposes as `a ++ nomeTok ++ b` at the first occurrence and the
suffix `b` is returned verbatim, so any later `{nome}` stays literal; the
reminder processor's step (appointment-reminders-processor.js:258, global
regex) instead recurses into `b`, replacing all occurrences. -/
theorem c10_follow_up_replaces_first_occurrence_only (t name : String) (a b : List Char)
    (hn : name ≠ "") (h : splitOnFirst t.data nomeTok.data = some (a, b)) :
    t.data = a ++ nomeTok.data ++ b ∧
    (fallbackSub t (some name)).data = a ++ name.data ++ b ∧
    (reminderNomeStep t (some name)).data =
      a ++ name.data ++ (jsReplaceAllS (String.mk b) nomeTok name).data := by
  obtain ⟨hdec, hrep⟩ := splitOnFirst_decomp nomeTok.data t.data a b h
  refine ⟨hdec, ?_, ?_⟩
  · show (jsReplaceFirstS t nomeTok (jsOrDefault (some name) "usuário")).data = _
    simp only [jsOrDefault, if_neg hn, jsReplaceFirstS]
    exact hrep name.data
  · have h' : splitOnFirst t.data ('\x7b' :: ("nome\x7d" : String).data) = some (a, b) := h
    have e1 := splitOnFirst_replaceAllAux '\x7b' ("nome\x7d" : String).data name.data
      t.data a b h'
    simp only [reminderNomeStep, if_neg hn, jsReplaceAllS]
    show (String.mk (replaceAllAux '\x7b' ("nome\x7d" : String).data name.data t.data)).data =
      a ++ name.data ++
        (String.mk (replaceAllAux '\x7b' ("nome\x7d" : String).data name.data b)).data
    rw [e1]

/-- Witness for C10 at the template `"Olá {nome}, {nome}!"` with name
`"Maria"`: the follow-up fallback leaves the second `{nome}` literal while
the reminder step replaces both. -/
theorem c10_follow_up_replaces_first_occurrence_only_witness :
    (fallbackSub "Olá \x7bnome\x7d, \x7bnome\x7d!" (some "Maria")).data =
      ("Olá " : String).data ++ ("Maria" : String).data ++ (", \x7bnome\x7d!" : String).data ∧
    fallbackSub "Olá \x7bnome\x7d, \x7bnome\x7d!" (some "Maria") = "Olá Maria, \x7bnome\x7d!" ∧
    reminderNomeStep "Olá \x7bnome\x7d, \x7bnome\x7d!" (some "Maria") = "Olá Maria, Maria!" :=
  ⟨(c10_follow_up_replaces_first_occurrence_only "Olá \x7bnome\x7d, \x7bnome\x7d!" "Maria"
      ("Olá " : String).data (", \x7bnome\x7d!" : String).data
      (by decide) (by decide)).2.1,
   by decide,
   reminderNome_two_occurrences⟩

-- ===============================================
-- Theorems: personalization chain (C3, C4, C6)
-- ===============================================

theorem checkCredits_error_not_enough (ce : CreditsEnv) (est : Nat) (m : String)
    (h : ce.lookup = Except.error m) :
    (checkCreditsBalance ce est).hasEnough = false := by
  cases hv : ce.companyIdValid <;> simp [checkCreditsBalance, hv, h]

theorem fallbackSub_ne_empty (t : String) (fn : Option String) (ht : t ≠ "") :
    fallbackSub t fn ≠ "" := by
  have hd : t.data ≠ [] := fun h0 => ht (String.ext h0)
  have hrep : (jsOrDefault fn "usuário") ≠ "" := by
    cases fn with
    | none => simp [jsOrDefault]
    | some s =>
      by_cases hs : s = "" <;> simp [jsOrDefault, hs]
  have hrepd : (jsOrDefault fn "usuário").data ≠ [] := fun h0 => hrep (String.ext h0)
  intro hc
  exact jsReplaceFirst_ne_nil t.data nomeTok.data (jsOrDefault fn "usuário").data hd hrepd
    (congrArg String.data hc)

/-- C3 counterexample: with the empty template and every network call failing
(credit lookup and both strategies error), the chain returns the empty
string, so "non-null, non-empty string for every input" fails as stated. -/
theorem c3_personalize_empty_template_counterexample :
    (generatePersonalizedMessageWithZionicCredits
      { hasApiKey := true
        creditsEnv := { companyIdValid := true, lookup := Except.error "timeout" }
        assistantResult := Except.error "timeout"
        threadOnlyResult := Except.error "timeout" }
      "" (some "Maria") true).message = "" := by
  decide

/-- C3 (amended): the chain is a total function (never throws) returning a
string that is non-empty whenever the template is non-empty; and for template
"Olá \x7bnome\x7d, ainda podemos ajudar?" with contact first name "Maria"
and the credit lookup failing (as when every network call fails), the result
is exactly "Olá Maria, ainda podemos ajudar?". -/
theorem c3_personalize_total_and_maria_scenario (env failEnv : GenEnv) (emsg t : String)
    (fn : Option String) (ha hb : Bool) (ht : t ≠ "")
    (hf : failEnv.creditsEnv.lookup = Except.error emsg) :
    (generatePersonalizedMessageWithZionicCredits env t fn ha).message ≠ "" ∧
    (generatePersonalizedMessageWithZionicCredits failEnv
      "Olá \x7bnome\x7d, ainda podemos ajudar?" (some "Maria") hb).message =
      "Olá Maria, ainda podemos ajudar?" := by
  constructor
  · unfold generatePersonalizedMessageWithZionicCredits
    by_cases hk : env.hasApiKey = false
    · rw [if_pos hk]; exact fallbackSub_ne_empty t fn ht
    · rw [if_neg hk]
      by_cases hc : (checkCreditsBalance env.creditsEnv 300).hasEnough = false
      · rw [if_pos hc]; exact fallbackSub_ne_empty t fn ht
      · rw [if_neg hc]
        cases hr : (if ha then env.assistantResult else env.threadOnlyResult) with
        | error m => exact fallbackSub_ne_empty t fn ht
        | ok m =>
          show (if m = "" then
                  ({ message := fallbackSub t fn, strategyAttempted := true } : GenOut)
                else { message := m, strategyAttempted := true }).message ≠ ""
          by_cases hm : m = ""
          · rw [if_pos hm]; exact fallbackSub_ne_empty t fn ht
          · rw [if_neg hm]; exact hm
  · have hce := checkCredits_error_not_enough failEnv.creditsEnv 300 emsg hf
    unfold generatePersonalizedMessageWithZionicCredits
    by_cases hk : failEnv.hasApiKey = false
    · rw [if_pos hk]; decide
    · rw [if_neg hk, if_pos hce]; decide

/-- Witness for C3 at a concrete all-failing environment. -/
theorem c3_personalize_total_and_maria_scenario_witness :
    (generatePersonalizedMessageWithZionicCredits
      { hasApiKey := true
        creditsEnv := { companyIdValid := true, lookup := Except.error "timeout" }
        assistantResult := Except.error "timeout"
        threadOnlyResult := Except.error "timeout" }
      "Olá \x7bnome\x7d" (some "Maria") false).message ≠ "" ∧
    (generatePersonalizedMessageWithZionicCredits
      { hasApiKey := true
        creditsEnv := { companyIdValid := true, lookup := Except.error "timeout" }
        assistantResult := Except.error "timeout"
        threadOnlyResult := Except.error "timeout" }
      "Olá \x7bnome\x7d, ainda podemos ajudar?" (some "Maria") true).message =
      "Olá Maria, ainda podemos ajudar?" :=
  ⟨(c3_personalize_total_and_maria_scenario
      { hasApiKey := true
        creditsEnv := { companyIdValid := true, lookup := Except.error "timeout" }
        assistantResult := Except.error "timeout"
        threadOnlyResult := Except.error "timeout" }
      { hasApiKey := true
        creditsEnv := { companyIdValid := true, lookup := Except.error "timeout" }
        assistantResult := Except.error "timeout"
        threadOnlyResult := Except.error "timeout" }
      "timeout" "Olá \x7bnome\x7d" (some "Maria") false true (by decide) (by decide)).1,
   (c3_personalize_total_and_maria_scenario
      { hasApiKey := true
        creditsEnv := { companyIdValid := true, lookup := Except.error "timeout" }
        assistantResult := Except.error "timeout"
        threadOnlyResult := Except.error "timeout" }
      { hasApiKey := true
        creditsEnv := { companyIdValid := true, lookup := Except.error "timeout" }
        assistantResult := Except.error "timeout"
        threadOnlyResult := Except.error "timeout" }
      "timeout" "Olá \x7bnome\x7d" (some "Maria") false true (by decide) (by decide)).2⟩

/-- C4 counterexample: with an attached assistant whose strategy throws while
the raw-thread strategy would succeed with "Oi Maria, tudo bem?", the chain
returns the static template substitution — the failing assistant strategy
does NOT fall through to the raw-completion strategy (and no
stateless-completion strategy exists in the latest revision at all). -/
theorem c4_no_cascade_counterexample :
    (generatePersonalizedMessageWithZionicCredits
      { hasApiKey := true
        creditsEnv := { companyIdValid := true, lookup := Except.ok 100000 }
        assistantResult := Except.error "Run falhou: rate limit"
        threadOnlyResult := Except.ok "Oi Maria, tudo bem?" }
      "Olá \x7bnome\x7d" (some "Maria") true).message = "Olá Maria" ∧
    ("Olá Maria" : String) ≠ "Oi Maria, tudo bem?" := by
  constructor <;> decide

/-- C4 (amended): the chain selects exactly one thread strategy by whether
the agent carries `openai_assistant_id` (server.js:549-577); a failure of the
selected strategy falls DIRECTLY to static template substitution, never to
the other thread strategy and never to a stateless completion — the result
with an assistant is independent of what the raw-thread strategy would have
returned, and vice versa. -/
theorem c4_personalize_dispatch (env : GenEnv) (t : String) (fn : Option String)
    (hk : env.hasApiKey = true)
    (hc : (checkCreditsBalance env.creditsEnv 300).hasEnough = true) :
    (∀ em, env.assistantResult = Except.error em →
      (generatePersonalizedMessageWithZionicCredits env t fn true).message = fallbackSub t fn) ∧
    (∀ m, m ≠ "" → env.assistantResult = Except.ok m →
      (generatePersonalizedMessageWithZionicCredits env t fn true).message = m) ∧
    (∀ em, env.threadOnlyResult = Except.error em →
      (generatePersonalizedMessageWithZionicCredits env t fn false).message = fallbackSub t fn) ∧
    (∀ m, m ≠ "" → env.threadOnlyResult = Except.ok m →
      (generatePersonalizedMessageWithZionicCredits env t fn false).message = m) := by
  have hk' : ¬env.hasApiKey = false := by simp [hk]
  have hc' : ¬(checkCreditsBalance env.creditsEnv 300).hasEnough = false := by simp [hc]
  refine ⟨?_, ?_, ?_, ?_⟩
  · intro em he
    unfold generatePersonalizedMessageWithZionicCredits
    rw [if_neg hk', if_neg hc']
    simp only [if_true, he]
  · intro m hm he
    unfold generatePersonalizedMessageWithZionicCredits
    rw [if_neg hk', if_neg hc']
    simp only [if_true, he, if_neg hm]
  · intro em he
    unfold generatePersonalizedMessageWithZionicCredits
    rw [if_neg hk', if_neg hc']
    simp only [Bool.false_eq_true, if_false, he]
  · intro m hm he
    unfold generatePersonalizedMessageWithZionicCredits
    rw [if_neg hk', if_neg hc']
    simp only [Bool.false_eq_true, if_false, he, if_neg hm]

/-- Witness for C4 at a concrete environment with ample credits. -/
theorem c4_personalize_dispatch_witness :
    (generatePersonalizedMessageWithZionicCredits
      { hasApiKey := true
        creditsEnv := { companyIdValid := true, lookup := Except.ok 100000 }
        assistantResult := Except.error "Run falhou: rate limit"
        threadOnlyResult := Except.ok "Oi Maria, tudo bem?" }
      "Olá \x7bnome\x7d" (some "Maria") true).message =
      fallbackSub "Olá \x7bnome\x7d" (some "Maria") :=
  (c4_personalize_dispatch
    { hasApiKey := true
      creditsEnv := { companyIdValid := true, lookup := Except.ok 100000 }
      assistantResult := Except.error "Run falhou: rate limit"
      threadOnlyResult := Except.ok "Oi Maria, tudo bem?" }
    "Olá \x7bnome\x7d" (some "Maria") (by decide) (by decide)).1
    "Run falhou: rate limit" (by decide)

/-- C6: whenever the credit gate reports an insufficient balance — in
particular a successfully read balance below the 300-token estimate — the
chain returns the template substitution with `strategyAttempted = false`: no
thread strategy (hence no LLM transport call) is dispatched
(server.js:533-544). -/
theorem c6_credit_gate_skips_llm (env : GenEnv) (t : String) (fn : Option String)
    (ha : Bool) (bal : Nat) (hv : env.creditsEnv.companyIdValid = true)
    (hl : env.creditsEnv.lookup = Except.ok bal) (hb : bal < 300) :
    generatePersonalizedMessageWithZionicCredits env t fn ha =
      { message := fallbackSub t fn, strategyAttempted := false } := by
  have hce : (checkCreditsBalance env.creditsEnv 300).hasEnough = false := by
    simp [checkCreditsBalance, hv, hl]
    omega
  unfold generatePersonalizedMessageWithZionicCredits
  by_cases hk : env.hasApiKey = false
  · rw [if_pos hk]
  · rw [if_neg hk, if_pos hce]

/-- Witness for C6: balance 5, estimate 300. -/
theorem c6_credit_gate_skips_llm_witness :
    generatePersonalizedMessageWithZionicCredits
      { hasApiKey := true
        creditsEnv := { companyIdValid := true, lookup := Except.ok 5 }
        assistantResult := Except.ok "nunca usado"
        threadOnlyResult := Except.ok "nunca usado" }
      "Olá \x7bnome\x7d" (some "Maria") true =
      { message := fallbackSub "Olá \x7bnome\x7d" (some "Maria"), strategyAttempted := false } :=
  c6_credit_gate_skips_llm
    { hasApiKey := true
      creditsEnv := { companyIdValid := true, lookup := Except.ok 5 }
      assistantResult := Except.ok "nunca usado"
      threadOnlyResult := Except.ok "nunca usado" }
    "Olá \x7bnome\x7d" (some "Maria") true 5 (by decide) (by decide) (by decide)

-- ===============================================
-- Theorems: eligibility, deferral, retry (C2, C5, C7, C8, C9)
-- ===============================================

/-- C7: an item whose attempts already reached `max_attempts` is failed
immediately (server.js:1206-1224): single write setting `status = failed`
with the max-attempts message, attempts untouched, outcome a terminal
failure, and neither the personalization chain nor the outbound send is
reached — for every environment, i.e. independently of every later call. -/
theorem c7_max_attempts_terminal (it : Item) (e : ProcEnv)
    (h1 : e.statusReadOk = true) (h2 : it.status = FStatus.pending)
    (h3 : it.maxAttempts ≤ it.attempts) :
    processFollowUp it e =
      { writes := [{ it with
                     status := FStatus.failed
                     executionError := some (maxAttemptsMsg it.maxAttempts) }]
        outcome := Outcome.failedMaxAttempts
        personalizeAttempted := false
        sendAttempted := false } ∧
    (finalOf it e).status = FStatus.failed ∧
    (finalOf it e).attempts = it.attempts ∧
    (finalOf it e).executionError = some (maxAttemptsMsg it.maxAttempts) := by
  refine ⟨?_, ?_, ?_, ?_⟩ <;>
    simp [processFollowUp, finalOf, lastWrite, h1, h2, h3]

/-- Witness for C7: attempts 2 of max 2. -/
theorem c7_max_attempts_terminal_witness :
    (processFollowUp (demoItem FStatus.pending 2 2) demoEnv).outcome =
      Outcome.failedMaxAttempts ∧
    (finalOf (demoItem FStatus.pending 2 2) demoEnv).status = FStatus.failed :=
  ⟨by rw [(c7_max_attempts_terminal (demoItem FStatus.pending 2 2) demoEnv
      (by decide) (by decide) (by decide)).1],
   (c7_max_attempts_terminal (demoItem FStatus.pending 2 2) demoEnv
      (by decide) (by decide) (by decide)).2.1⟩

/-- C2 (code bug): with a successfully read balance of 5 (below the 1000
threshold) and attempts 0 of 3, the credits branch first writes
`status = failed` with the insufficient-credits message (server.js:1249-1256)
but then throws, and the generic catch overwrites the row with
`status = pending` because attempts remain (server.js:1475-1486) — the final
state is a retried pending row, not a terminal failure, contradicting the
branch's own "Marcar como failed" comment and the spec. -/
theorem c2_insufficient_credits_ends_pending :
    (processFollowUp (demoItem FStatus.pending 0 3)
      { demoEnv with creditsEnv := { companyIdValid := true, lookup := Except.ok 5 } }).writes =
      [ { demoItem FStatus.pending 0 3 with
          status := FStatus.failed
          attempts := 1
          executionError := some (insufficientCreditsMsg 5) },
        { demoItem FStatus.pending 0 3 with
          status := FStatus.pending
          attempts := 1
          executionError := some (insufficientCreditsMsg 5) } ] ∧
    (finalOf (demoItem FStatus.pending 0 3)
      { demoEnv with creditsEnv := { companyIdValid := true, lookup := Except.ok 5 } }).status =
      FStatus.pending ∧
    (finalOf (demoItem FStatus.pending 0 3)
      { demoEnv with creditsEnv := { companyIdValid := true, lookup := Except.ok 5 } }).executionError =
      some (insufficientCreditsMsg 5) ∧
    FStatus.pending ≠ FStatus.failed := by
  refine ⟨?_, ?_, ?_, ?_⟩ <;> decide

/-- C5 (code bug): with the server at UTC and the company at UTC-3
(America/Sao_Paulo), evaluated at instant 570 (09:30 UTC, 06:30 company
time — outside business hours) on an item originally scheduled at 540
(09:00 UTC), the deferral branch fires as described (deferred outcome,
status stays pending, attempts unchanged) but `setHours` runs on the
SERVER-local calendar (server.js:1309-1314): the new `scheduled_at` is 480
(08:00 UTC = 05:00 company time) — EARLIER than the original 540 and still
outside business hours, contradicting "next business-hour start, an in-hours
instant strictly greater than the original". -/
theorem c5_reschedule_timezone_slip :
    (processFollowUp (demoItem FStatus.pending 0 3)
      { demoEnv with ruleRequiresBusinessHours := true, companyTzOffset := -180 }).outcome =
      Outcome.deferredOutcome ∧
    (processFollowUp (demoItem FStatus.pending 0 3)
      { demoEnv with ruleRequiresBusinessHours := true, companyTzOffset := -180 }).writes =
      [{ demoItem FStatus.pending 0 3 with scheduledAt := 480 }] ∧
    (finalOf (demoItem FStatus.pending 0 3)
      { demoEnv with ruleRequiresBusinessHours := true, companyTzOffset := -180 }).status =
      FStatus.pending ∧
    (finalOf (demoItem FStatus.pending 0 3)
      { demoEnv with ruleRequiresBusinessHours := true, companyTzOffset := -180 }).attempts = 0 ∧
    rescheduleInstant 570 0 (-180) = 480 ∧
    (demoItem FStatus.pending 0 3).scheduledAt = 540 ∧
    ¬ ((540 : Int) < 480) ∧
    inBusinessHours (localHour 480 (-180)) = false := by
  refine ⟨?_, ?_, ?_, ?_, ?_, ?_, ?_, ?_⟩ <;> decide

/-- Branch enumeration for `processFollowUp`: every run is one of a
single-catch-write error, a skip, the max-attempts terminal failure, the
double-write credits failure, a deferral (only possible when the
business-hours check returned false), or a successful send. -/
theorem processFollowUp_cases (it : Item) (e : ProcEnv) :
    (∃ m p q, processFollowUp it e =
       { writes := [catchWrite it m], outcome := Outcome.errored m,
         personalizeAttempted := p, sendAttempted := q }) ∨
    (processFollowUp it e =
       { writes := [], outcome := Outcome.skippedStatusChanged,
         personalizeAttempted := false, sendAttempted := false } ∧
       it.status ≠ FStatus.pending) ∨
    (processFollowUp it e =
       { writes := [{ it with
                      status := FStatus.failed
                      executionError := some (maxAttemptsMsg it.maxAttempts) }]
         outcome := Outcome.failedMaxAttempts
         personalizeAttempted := false
         sendAttempted := false } ∧
       it.status = FStatus.pending ∧ it.maxAttempts ≤ it.attempts) ∨
    (∃ m, processFollowUp it e =
       { writes := [{ it with
                      status := FStatus.failed
                      attempts := it.attempts + 1
                      executionError := some m },
                    catchWrite it m]
         outcome := Outcome.errored m
         personalizeAttempted := false
         sendAttempted := false } ∧
       it.status = FStatus.pending ∧ it.attempts < it.maxAttempts) ∨
    (processFollowUp it e =
       { writes := [{ it with
                      scheduledAt := rescheduleInstant e.now e.serverTzOffset e.companyTzOffset }]
         outcome := Outcome.deferredOutcome
         personalizeAttempted := false
         sendAttempted := false } ∧
       isBusinessHoursM e.bhError e.now e.companyTzOffset = false ∧
       it.status = FStatus.pending ∧ it.attempts < it.maxAttempts) ∨
    (∃ g, processFollowUp it e =
       { writes := [{ it with
                      status := FStatus.sent
                      attempts := it.attempts + 1
                      generatedMessage := some g }]
         outcome := Outcome.sentOutcome
         personalizeAttempted := true
         sendAttempted := true } ∧
       it.status = FStatus.pending ∧ it.attempts < it.maxAttempts) := by
  by_cases h1 : e.statusReadOk = false
  · exact Or.inl ⟨statusReadErrMsg, false, false, by
      simp only [processFollowUp]; rw [if_pos h1]⟩
  · by_cases h2 : it.status ≠ FStatus.pending
    · exact Or.inr (Or.inl ⟨by
        simp only [processFollowUp]; rw [if_neg h1, if_pos h2], h2⟩)
    · have hpend : it.status = FStatus.pending := not_not.mp h2
      by_cases h3 : it.maxAttempts ≤ it.attempts
      · exact Or.inr (Or.inr (Or.inl ⟨by
          simp only [processFollowUp]; rw [if_neg h1, if_neg h2, if_pos h3], hpend, h3⟩))
      · have hatt : it.attempts < it.maxAttempts := Nat.lt_of_not_le h3
        by_cases h4 : e.companyIdPresent = false ∧ e.backfillOk = false
        · exact Or.inl ⟨companyIdErrMsg, false, false, by
            simp only [processFollowUp]; rw [if_neg h1, if_neg h2, if_neg h3, if_pos h4]⟩
        · by_cases h5 : (checkCreditsBalance e.creditsEnv minimumBalanceThreshold).hasEnough = false
          · refine Or.inr (Or.inr (Or.inr (Or.inl
              ⟨insufficientCreditsMsg
                 (checkCreditsBalance e.creditsEnv minimumBalanceThreshold).currentBalance,
               by simp only [processFollowUp]
                  rw [if_neg h1, if_neg h2, if_neg h3, if_neg h4, if_pos h5],
               hpend, hatt⟩)))
          · by_cases h6 : e.contextOk = false
            · exact Or.inl ⟨contextErrMsg, false, false, by
                simp only [processFollowUp]
                rw [if_neg h1, if_neg h2, if_neg h3, if_neg h4, if_neg h5, if_pos h6]⟩
            · by_cases h7 : e.agentOk = false
              · exact Or.inl ⟨agentErrMsg, false, false, by
                  simp only [processFollowUp]
                  rw [if_neg h1, if_neg h2, if_neg h3, if_neg h4, if_neg h5, if_neg h6,
                      if_pos h7]⟩
              · by_cases h8 : e.ruleRequiresBusinessHours = true ∧
                    isBusinessHoursM e.bhError e.now e.companyTzOffset = false
                · refine Or.inr (Or.inr (Or.inr (Or.inr (Or.inl ⟨by
                    simp only [processFollowUp]
                    rw [if_neg h1, if_neg h2, if_neg h3, if_neg h4, if_neg h5, if_neg h6,
                        if_neg h7, if_pos h8], h8.2, hpend, hatt⟩))))
                · by_cases h9 : e.instanceOk = false
                  · exact Or.inl ⟨instanceErrMsg, true, false, by
                      simp only [processFollowUp]
                      rw [if_neg h1, if_neg h2, if_neg h3, if_neg h4, if_neg h5, if_neg h6,
                          if_neg h7, if_neg h8, if_pos h9]⟩
                  · by_cases h10 : e.sendOk = false
                    · exact Or.inl ⟨e.sendErrorMsg, true, true, by
                        simp only [processFollowUp]
                        rw [if_neg h1, if_neg h2, if_neg h3, if_neg h4, if_neg h5, if_neg h6,
                            if_neg h7, if_neg h8, if_neg h9, if_pos h10]⟩
                    · by_cases h11 : e.updateSentOk = false
                      · exact Or.inl ⟨sentUpdateErrMsg, true, true, by
                          simp only [processFollowUp]
                          rw [if_neg h1, if_neg h2, if_neg h3, if_neg h4, if_neg h5, if_neg h6,
                              if_neg h7, if_neg h8, if_neg h9, if_neg h10, if_pos h11]⟩
                      · refine Or.inr (Or.inr (Or.inr (Or.inr (Or.inr
                          ⟨(generatePersonalizedMessageWithZionicCredits e.genEnv
                              it.messageTemplate e.contactFirstName e.hasAssistantId).message,
                           by simp only [processFollowUp]
                              rw [if_neg h1, if_neg h2, if_neg h3, if_neg h4, if_neg h5,
                                  if_neg h6, if_neg h7, if_neg h8, if_neg h9, if_neg h10,
                                  if_neg h11],
                           hpend, hatt⟩))))

/-- C9: if the hour computation inside `isBusinessHours` throws (e.g. a bad
stored timezone string handed to the formatter), the catch block returns
`true` (server.js:157-161) — the system fails open; consequently the
business-hours deferral branch can never fire under such an error and the
item proceeds to execution; a failed timezone LOOKUP alone never even
reaches that catch, because `getCompanyTimezone` already returns the default
timezone on every failure path (server.js:194-201). -/
theorem c9_business_hours_fails_open (emsg : String) (now cOff : Int)
    (it : Item) (e : ProcEnv) (he : e.bhError = some emsg) :
    isBusinessHoursM (some emsg) now cOff = true ∧
    getCompanyTimezoneM none none = "America/Sao_Paulo" ∧
    (processFollowUp it e).outcome ≠ Outcome.deferredOutcome := by
  refine ⟨rfl, rfl, fun hcon => ?_⟩
  rcases processFollowUp_cases it e with
    ⟨m, p, q, h⟩ | ⟨h, _⟩ | ⟨h, _⟩ | ⟨m, h, _⟩ | ⟨h, hbh, _⟩ | ⟨g, h, _⟩ <;>
    rw [h] at hcon
  · exact Outcome.noConfusion hcon
  · exact Outcome.noConfusion hcon
  · exact Outcome.noConfusion hcon
  · exact Outcome.noConfusion hcon
  · rw [he] at hbh; exact absurd hbh (by simp [isBusinessHoursM])
  · exact Outcome.noConfusion hcon

/-- Witness for C9 at a concrete invalid-timezone error. -/
theorem c9_business_hours_fails_open_witness :
    isBusinessHoursM (some "Invalid time zone specified") 570 (-180) = true ∧
    (processFollowUp (demoItem FStatus.pending 0 3)
      { demoEnv with
        ruleRequiresBusinessHours := true
        companyTzOffset := -180
        bhError := some "Invalid time zone specified" }).outcome ≠
      Outcome.deferredOutcome :=
  ⟨(c9_business_hours_fails_open "Invalid time zone specified" 570 (-180)
      (demoItem FStatus.pending 0 3)
      { demoEnv with
        ruleRequiresBusinessHours := true
        companyTzOffset := -180
        bhError := some "Invalid time zone specified" } rfl).1,
   (c9_business_hours_fails_open "Invalid time zone specified" 570 (-180)
      (demoItem FStatus.pending 0 3)
      { demoEnv with
        ruleRequiresBusinessHours := true
        companyTzOffset := -180
        bhError := some "Invalid time zone specified" } rfl).2.2⟩

theorem finalOf_attempts_mono (it : Item) (e : ProcEnv) :
    it.attempts ≤ (finalOf it e).attempts := by
  unfold finalOf
  rcases processFollowUp_cases it e with
    ⟨m, p, q, h⟩ | ⟨h, _⟩ | ⟨h, _⟩ | ⟨m, h, _⟩ | ⟨h, _⟩ | ⟨g, h, _⟩ <;>
    rw [h] <;> simp [lastWrite, catchWrite]

theorem finalOf_inv (it : Item) (e : ProcEnv) (h : AttemptsInv it) :
    AttemptsInv (finalOf it e) := by
  unfold AttemptsInv at h ⊢
  unfold finalOf
  rcases processFollowUp_cases it e with
    ⟨m, p, q, hh⟩ | ⟨hh, _⟩ | ⟨hh, _⟩ | ⟨m, hh, _, hatt⟩ | ⟨hh, _, _, hatt⟩ | ⟨g, hh, _⟩ <;>
    rw [hh] <;> simp [lastWrite, catchWrite]
  · omega
  · exact h
  · omega
  · intro _; omega

/-- C8: the attempts counter never decreases across any single
`processFollowUp` run nor across any sequence of runs, and the invariant
"attempts ≤ max_attempts while status = pending" is preserved by every run
and along every trace (server.js:1206-1224,1386-1395,1475-1486: the only
increments are by one, guarded by the max-attempts pre-check, and the catch
path flips the row to failed exactly when the cap is reached). -/
theorem c8_attempts_monotone_and_capped :
    (∀ it e, it.attempts ≤ (finalOf it e).attempts) ∧
    (∀ it e, AttemptsInv it → AttemptsInv (finalOf it e)) ∧
    (∀ it envs, AttemptsInv it →
      it.attempts ≤ (runFollowUps it envs).attempts ∧
      AttemptsInv (runFollowUps it envs)) := by
  refine ⟨finalOf_attempts_mono, finalOf_inv, ?_⟩
  intro it envs
  induction envs generalizing it with
  | nil => intro h; exact ⟨Nat.le_refl _, h⟩
  | cons e es ih =>
    intro h
    obtain ⟨ih1, ih2⟩ := ih (finalOf it e) (finalOf_inv it e h)
    exact ⟨Nat.le_trans (finalOf_attempts_mono it e) ih1, ih2⟩

/-- Witness for C8 on a concrete two-cycle trace. -/
theorem c8_attempts_monotone_and_capped_witness :
    AttemptsInv (demoItem FStatus.pending 0 3) ∧
    (demoItem FStatus.pending 0 3).attempts ≤
      (runFollowUps (demoItem FStatus.pending 0 3) [demoEnv, demoEnv]).attempts ∧
    AttemptsInv (runFollowUps (demoItem FStatus.pending 0 3) [demoEnv, demoEnv]) :=
  ⟨by decide,
   (c8_attempts_monotone_and_capped.2.2 (demoItem FStatus.pending 0 3)
      [demoEnv, demoEnv] (by decide)).1,
   (c8_attempts_monotone_and_capped.2.2 (demoItem FStatus.pending 0 3)
      [demoEnv, demoEnv] (by decide)).2⟩

-- ===============================================
-- Theorems: orphan detector and the unique-sent invariant (C1)
-- ===============================================

theorem finalOf_pair (it : Item) (e : ProcEnv) :
    (finalOf it e).conversationId = it.conversationId ∧
    (finalOf it e).ruleId = it.ruleId := by
  unfold finalOf
  rcases processFollowUp_cases it e with
    ⟨m, p, q, h⟩ | ⟨h, _⟩ | ⟨h, _⟩ | ⟨m, h, _⟩ | ⟨h, _⟩ | ⟨g, h, _⟩ <;>
    rw [h] <;> simp [lastWrite, catchWrite]

theorem countP_set_of_pres (p : Item → Bool) :
    ∀ (q : List Item) (i : Nat) (x : Item),
      (∀ it, q[i]? = some it → p x = p it) →
      (q.set i x).countP p = q.countP p := by
  intro q
  induction q with
  | nil => intro i x _; simp
  | cons a t ih =>
    intro i x h
    cases i with
    | zero =>
      have hpa := h a (by simp)
      simp [List.set_cons_zero, List.countP_cons, hpa]
    | succ n =>
      have hrec := ih n x (fun it hit => h it (by simpa using hit))
      simp [List.set_cons_succ, List.countP_cons, hrec]

theorem countP_eq_zero_of_any_eq_false (p : Item → Bool) (q : List Item)
    (h : q.any p = false) : q.countP p = 0 := by
  rw [List.countP_eq_zero]
  intro a ha hpa
  have : q.any p = true := List.any_eq_true.mpr ⟨a, ha, hpa⟩
  rw [h] at this
  exact Bool.noConfusion this

theorem pairCount_append_single (q : List Item) (x : Item) (c r : Nat) :
    pairCount (q ++ [x]) c r =
      pairCount q c r + (if pairMatch c r x then 1 else 0) := by
  unfold pairCount
  rw [List.countP_append]
  simp [List.countP_cons]

theorem pairUnique_orphan (q : List Item) (c r : Nat) (t : String) (m : Nat)
    (l d n : Int) (h : PairUnique q) :
    PairUnique (createOrphanUltraSafe q c r t m l d n) := by
  unfold createOrphanUltraSafe
  split_ifs with hs hp hd
  · exact h
  · exact h
  · intro c' r'
    rw [pairCount_append_single]
    by_cases hmatch : c = c' ∧ r = r'
    · obtain ⟨hc, hr⟩ := hmatch
      subst hc; subst hr
      have h0 : pairCount q c r = 0 :=
        countP_eq_zero_of_any_eq_false _ _ (Bool.eq_false_iff.mpr hp)
      rw [h0]
      simp [pairMatch]
    · have hnew : (if pairMatch c' r'
          { conversationId := c
            ruleId := r
            status := FStatus.pending
            attempts := 0
            maxAttempts := m
            scheduledAt := l + d
            messageTemplate := t
            executionError := none
            generatedMessage := none } then 1 else 0) = 0 := by
        simp only [pairMatch]
        simp only [decide_eq_true_eq]
        rw [if_neg hmatch]
      rw [hnew]
      simpa using h c' r'
  · exact h

theorem pairUnique_qstep (q : List Item) (ev : QEvent) (h : PairUnique q) :
    PairUnique (qstep q ev) := by
  cases ev with
  | orphan c r t m l d n => exact pairUnique_orphan q c r t m l d n h
  | process i e =>
    show PairUnique (match q[i]? with
      | none => q
      | some it => q.set i (finalOf it e))
    cases hq : q[i]? with
    | none => exact h
    | some it =>
      intro c r
      unfold pairCount
      rw [countP_set_of_pres (pairMatch c r) q i (finalOf it e) ?_]
      · exact h c r
      · intro it2 hit2
        rw [hq] at hit2
        cases hit2
        simp only [pairMatch, (finalOf_pair it e).1, (finalOf_pair it e).2]

theorem pairUnique_runQ (q : List Item) (evs : List QEvent) (h : PairUnique q) :
    PairUnique (runQ q evs) := by
  induction evs generalizing q with
  | nil => exact h
  | cons ev evs ih => exact ih (qstep q ev) (pairUnique_qstep q ev h)

theorem sentCount_le_pairCount (q : List Item) (c r : Nat) :
    sentCount q c r ≤ pairCount q c r := by
  unfold sentCount pairCount
  induction q with
  | nil => simp
  | cons a t ih =>
    simp only [List.countP_cons]
    cases h1 : pairSentMatch c r a with
    | false => simp [h1]; split_ifs <;> omega
    | true =>
      have h2 : pairMatch c r a = true := by
        revert h1
        simp [pairSentMatch, pairMatch]
        tauto
      simp [h1, h2]
      omega

/-- C1: (spec-modelled) before materializing an orphan the detector's stored
procedure verifies the pair: an existing `sent` item on the same
(conversation, rule) pair makes the sweep a no-op for that pair; and in the
modelled system — queue rows created only by the detector, mutated only by
`processFollowUp`, never deleted — every run starting from a queue with at
most one row per pair (e.g. the empty queue) keeps at most one row and hence
at most one `sent` row per pair, ever. -/
theorem c1_orphan_sent_guard_and_unique_sent :
    (∀ (q : List Item) (c r : Nat) (t : String) (m : Nat) (l d n : Int),
      (∃ it ∈ q, it.conversationId = c ∧ it.ruleId = r ∧ it.status = FStatus.sent) →
      createOrphanUltraSafe q c r t m l d n = q) ∧
    (∀ (q : List Item) (evs : List QEvent), PairUnique q →
      PairUnique (runQ q evs) ∧ AtMostOneSent (runQ q evs)) := by
  constructor
  · intro q c r t m l d n hex
    have hany : q.any (pairSentMatch c r) = true := by
      rw [List.any_eq_true]
      obtain ⟨it, hin, h1, h2, h3⟩ := hex
      exact ⟨it, hin, by simp [pairSentMatch, h1, h2, h3]⟩
    unfold createOrphanUltraSafe
    rw [if_pos hany]
  · intro q evs h
    have hu := pairUnique_runQ q evs h
    exact ⟨hu, fun c r => Nat.le_trans (sentCount_le_pairCount _ c r) (hu c r)⟩

/-- Witness for C1: a queue holding a `sent` row for pair (7, 9) is left
unchanged by the sweep on that pair, and two successive sweeps from the
empty queue keep the unique-sent invariant. -/
theorem c1_orphan_sent_guard_and_unique_sent_witness :
    createOrphanUltraSafe [demoItem FStatus.sent 1 3] 7 9 "Olá" 3 0 15 100 =
      [demoItem FStatus.sent 1 3] ∧
    AtMostOneSent (runQ []
      [QEvent.orphan 7 9 "Olá" 3 0 15 100, QEvent.orphan 7 9 "Olá" 3 0 15 100]) :=
  ⟨c1_orphan_sent_guard_and_unique_sent.1 [demoItem FStatus.sent 1 3] 7 9 "Olá" 3 0 15 100
      ⟨demoItem FStatus.sent 1 3, List.mem_singleton.mpr rfl, by decide⟩,
   (c1_orphan_sent_guard_and_unique_sent.2 []
      [QEvent.orphan 7 9 "Olá" 3 0 15 100, QEvent.orphan 7 9 "Olá" 3 0 15 100]
      (fun _ _ => Nat.zero_le 1)).2⟩
